import Mathlib

/-!
A verification development for the nl2sql repository.

The Python sources are embedded shallowly: pure functions over strings
become Lean functions over `List Char` (with `String` wrappers), the
LangGraph state machine becomes a step relation over an explicit state
record, and the specific regular expressions used by the sandbox are
translated into dedicated string scanners.  Machine integers do not
occur (Python ints are unbounded), so `Nat` is used throughout.

Unicode note: Python's `str.lower()` and the regex classes `\s`, `\w`
are Unicode-aware; the embedding models them over ASCII (`Char.toLower`,
ASCII whitespace, `[A-Za-z0-9_]`), which agrees with Python on every
keyword list, SQL statement and Chinese question the repository and the
claims use (Chinese characters have no case and never abut the ASCII
keywords being matched here).
-/

namespace NL2SQL

/-! ## Basic string helpers (Python `str` methods over `List Char`) -/

/-- Python whitespace, as used by `str.strip` and by the regex class `\s`
(ASCII part). -/
def pySpace (c : Char) : Bool :=
  c = ' ' || c = '\t' || c = '\n' || c = '\r' || c = '\x0b' || c = '\x0c'

/-- `str.lstrip()` (whitespace form). -/
def lstripWs (l : List Char) : List Char := l.dropWhile pySpace

/-- `str.rstrip()` (whitespace form). -/
def rstripWs (l : List Char) : List Char :=
  (l.reverse.dropWhile pySpace).reverse

/-- `str.strip()` (whitespace form). -/
def stripWs (l : List Char) : List Char := rstripWs (lstripWs l)

/-- `str.rstrip(ch)`: remove every trailing occurrence of `ch`. -/
def rstripChar (ch : Char) (l : List Char) : List Char :=
  (l.reverse.dropWhile (fun c => c = ch)).reverse

/-- `str.lower()` (ASCII case fold, see the Unicode note above). -/
def lowerL (l : List Char) : List Char := l.map Char.toLower

/-- Python's `needle in haystack` substring test. -/
def containsSub (needle : List Char) : List Char → Bool
  | [] => needle.isEmpty
  | c :: rest => needle.isPrefixOf (c :: rest) || containsSub needle rest

/-- Substring test on `String`s. -/
def strContains (haystack needle : String) : Bool :=
  containsSub needle.data haystack.data

/-- Cut a character list at the first occurrence of `marker` (the part
before the marker). -/
def cutFrom (marker : List Char) : List Char → List Char
  | [] => []
  | c :: rest =>
    if marker.isPrefixOf (c :: rest) then [] else c :: cutFrom marker rest

/-- Digits to a number, `int` on a nonempty digit string. -/
def natOfDigits (l : List Char) : Nat :=
  l.foldl (fun n c => n * 10 + (c.toNat - 48)) 0

/-- The regex word-character class `\w` (ASCII part): `[A-Za-z0-9_]`. -/
def isWordChar (c : Char) : Bool :=
  c.isAlpha || c.isDigit || c = '_'

/-! ## SQL sandbox (src/tools/sandbox.py) -/

/-- `re.sub(r'--.*?$', '', sql, flags=re.MULTILINE)`: on every line, drop
everything from the first `--` on; the line structure itself is kept. -/
def stripLineComments (l : List Char) : List Char :=
  List.intercalate ['\n'] ((l.splitOn '\n').map (cutFrom ['-', '-']))

/-- Position just after the first `*/`, if any. -/
def afterClose : List Char → Option (List Char)
  | [] => none
  | [_] => none
  | c :: d :: rest =>
    if c = '*' && d = '/' then some rest else afterClose (d :: rest)

/-- `re.sub(r'/\*.*?\*/', '', sql, flags=re.DOTALL)`: scanning left to
right, each `/*` with a later `*/` is removed together with everything
between them (shortest match); a `/*` with no later `*/` stays.  Each
step consumes at least one character, so `fuel := length` always
suffices; the fuel argument only makes the recursion structural. -/
def stripBlockCommentsAux : Nat → List Char → List Char
  | 0, l => l
  | _ + 1, [] => []
  | fuel + 1, c :: rest =>
    if c = '/' then
      match rest with
      | '*' :: rest2 =>
        match afterClose rest2 with
        | some rest3 => stripBlockCommentsAux fuel rest3
        | none => c :: stripBlockCommentsAux fuel rest
      | _ => c :: stripBlockCommentsAux fuel rest
    else c :: stripBlockCommentsAux fuel rest

def stripBlockComments (l : List Char) : List Char :=
  stripBlockCommentsAux l.length l

/-- `sql_clean` of `check_sql_safety`: both comment kinds removed, then
`strip()`ed. -/
def sqlClean (sql : String) : List Char :=
  stripWs (stripBlockComments (stripLineComments sql.data))

/-- `sql_clean_lower` of `check_sql_safety`. -/
def sqlCleanLower (sql : String) : List Char := lowerL (sqlClean sql)

/-- The DML/DDL words of the multiple-statement dangerous pattern. -/
def dmlWords : List (List Char) :=
  ["drop", "delete", "update", "insert", "alter", "create", "truncate",
   "exec", "execute"].map String.data

/-- `;\s*(drop|delete|update|insert|alter|create|truncate|exec|execute)` -/
def patMultiStatement : List Char → Bool
  | [] => false
  | ';' :: rest =>
    dmlWords.any (fun w => w.isPrefixOf (rest.dropWhile pySpace)) ||
      patMultiStatement rest
  | _ :: rest => patMultiStatement rest

/-- `union\s+.*select` with `re.DOTALL` (`.` crosses newlines): a `union`
followed by at least one whitespace character and, somewhere after that,
`select`. -/
def patUnionSelect : List Char → Bool
  | [] => false
  | c :: rest =>
    (("union".data).isPrefixOf (c :: rest) &&
      (match (c :: rest).drop 5 with
       | d :: r => pySpace d && containsSub ("select".data) r
       | [] => false)) ||
    patUnionSelect rest

/-- `/\*.*\*/` with `re.DOTALL`: a `/*` with a `*/` somewhere after it. -/
def patCommentPair : List Char → Bool
  | [] => false
  | c :: rest =>
    (c = '/' &&
      (match rest with
       | d :: r => d = '*' && containsSub ['*', '/'] r
       | [] => false)) ||
    patCommentPair rest

/-- `--\s`: a double dash followed by a whitespace character. -/
def patDashComment : List Char → Bool
  | [] => false
  | c :: rest =>
    (c = '-' &&
      (match rest with
       | d :: r =>
         d = '-' && (match r with | e :: _ => pySpace e | [] => false)
       | [] => false)) ||
    patDashComment rest

/-- `w1\s+w2` for words starting with a non-whitespace character
(`into\s+outfile`, `load\s+data`). -/
def patWordGapWord (w1 w2 : List Char) : List Char → Bool
  | [] => false
  | c :: rest =>
    (w1.isPrefixOf (c :: rest) &&
      (match (c :: rest).drop w1.length with
       | d :: r => pySpace d && w2.isPrefixOf (r.dropWhile pySpace)
       | [] => false)) ||
    patWordGapWord w1 w2 rest

/-- `load_file\s*\(`. -/
def patLoadFile : List Char → Bool
  | [] => false
  | c :: rest =>
    (("load_file".data).isPrefixOf (c :: rest) &&
      (match ((c :: rest).drop 9).dropWhile pySpace with
       | d :: _ => d = '('
       | [] => false)) ||
    patLoadFile rest

/-- The `dangerous_patterns` loop of `check_sql_safety`, in source order.
Each entry pairs with a human-readable reason in the source; only
whether some pattern fires decides `{ok, code}`. -/
def hasDangerousPattern (s : List Char) : Bool :=
  patMultiStatement s || patUnionSelect s || patCommentPair s ||
    patDashComment s ||
    patWordGapWord "into".data "outfile".data s ||
    patWordGapWord "load".data "data".data s ||
    patLoadFile s

/-- `default_forbidden` of `check_sql_safety`. -/
def default_forbidden : List String :=
  ["insert", "update", "delete", "drop", "alter", "truncate",
   "create", "grant", "revoke", "rename", "replace",
   "into outfile", "load data", "sleep", "benchmark",
   "exec", "execute", "call", "procedure", "function",
   "lock", "unlock", "flush", "kill", "shutdown",
   "information_schema", "mysql", "sys", "performance_schema"]

/-- Whether `kw` matches at the current position with `\b` on both sides,
for a keyword beginning and ending in word characters (true of every
keyword of `default_forbidden`); `prev` is the character before the
position. -/
def boundaryMatchHere (kw : List Char) (prev : Option Char) (l : List Char) : Bool :=
  kw.isPrefixOf l &&
    (match prev with | none => true | some p => !isWordChar p) &&
    (match l.drop kw.length with | c :: _ => !isWordChar c | [] => true)

/-- `re.search(r'\b' + re.escape(kw) + r'\b', s)` via a left-to-right
scan. -/
def boundaryScan (kw : List Char) : Option Char → List Char → Bool
  | prev, [] => boundaryMatchHere kw prev []
  | prev, c :: rest =>
    boundaryMatchHere kw prev (c :: rest) || boundaryScan kw (some c) rest

/-- The forbidden-keyword loop of `check_sql_safety`: each keyword is
lowered and matched as a whole word. -/
def hasForbiddenKeyword (forbidden : List String) (s : List Char) : Bool :=
  forbidden.any (fun kw => boundaryScan (lowerL kw.data) none s)

/-- The `{ok, code}` part of the dictionary `check_sql_safety` returns.
The source's `reason` field is a message derived from the same branch as
`code`; the claims speak only of `{ok, code}`. -/
structure SafetyResult where
  ok : Bool
  code : Option String
deriving DecidableEq, Repr

/-- `check_sql_safety(sql, forbidden_keywords)` (src/tools/sandbox.py).
The source's first test `not sql or not sql.strip()` is equivalent to
`sql.strip()` being empty.  The `max_rows` parameter of the source is
unused by the checks and omitted. -/
def check_sql_safety (sql : String)
    (forbidden_keywords : Option (List String) := none) : SafetyResult :=
  if (stripWs sql.data).isEmpty then
    ⟨false, some "SANDBOX_EMPTY_SQL"⟩
  else if !(("select".data).isPrefixOf (sqlCleanLower sql)) then
    ⟨false, some "SANDBOX_NON_SELECT"⟩
  else if hasDangerousPattern (sqlCleanLower sql) then
    ⟨false, some "SANDBOX_DANGEROUS_PATTERN"⟩
  else if hasForbiddenKeyword (forbidden_keywords.getD default_forbidden)
      (sqlCleanLower sql) then
    ⟨false, some "SANDBOX_FORBIDDEN_KEYWORD"⟩
  else
    ⟨true, none⟩

/-- `ensure_limit(sql, default_limit)` (src/tools/sandbox.py). -/
def ensure_limit (sql : String) (default_limit : Nat := 200) : String :=
  let sql_lower := lowerL (stripWs sql.data)
  if containsSub (" limit ".data) sql_lower then sql
  else
    let sql_clean := rstripChar ';' (rstripWs sql.data)
    ⟨sql_clean ++ (" LIMIT " ++ toString default_limit ++ ";").data⟩

/-- `re.search(r'limit\s+(\d+)', s)`: the first `limit` followed by at
least one whitespace character and at least one digit; the captured
digit run as a number. -/
def findLimitNum : List Char → Option Nat
  | [] => none
  | c :: rest =>
    if ("limit".data).isPrefixOf (c :: rest) then
      match (c :: rest).drop 5 with
      | d :: r =>
        if pySpace d then
          let digits := (r.dropWhile pySpace).takeWhile Char.isDigit
          if digits.isEmpty then findLimitNum rest
          else some (natOfDigits digits)
        else findLimitNum rest
      | [] => findLimitNum rest
    else findLimitNum rest

/-- `extract_limit(sql)` (src/tools/sandbox.py): the regex runs on
`sql.lower()`. -/
def extract_limit (sql : String) : Option Nat :=
  findLimitNum (lowerL sql.data)

/-- One position's match of `limit\s+\d+` (case-insensitive): the
remainder after the matched region, when the regex matches here. -/
def matchLimitHere (l : List Char) : Option (List Char) :=
  if ("limit".data).isPrefixOf (lowerL (l.take 5)) then
    let r := l.drop 5
    let ws := r.takeWhile pySpace
    let digits := (r.drop ws.length).takeWhile Char.isDigit
    if ws.isEmpty || digits.isEmpty then none
    else some (r.drop (ws.length + digits.length))
  else none

/-- `re.sub(r'limit\s+\d+', f'LIMIT {eff}', sql, flags=re.IGNORECASE)`:
every non-overlapping match is replaced, scanning left to right.  Each
step consumes at least one character, so `fuel := length` always
suffices. -/
def replaceLimitAllAux (eff : Nat) : Nat → List Char → List Char
  | 0, l => l
  | _ + 1, [] => []
  | fuel + 1, c :: rest =>
    match matchLimitHere (c :: rest) with
    | some after =>
      ("LIMIT ".data ++ (toString eff).data) ++ replaceLimitAllAux eff fuel after
    | none => c :: replaceLimitAllAux eff fuel rest

def replaceLimitAll (eff : Nat) (l : List Char) : List Char :=
  replaceLimitAllAux eff l.length l

/-- `apply_row_limit(sql, max_rows, default_limit)` (src/tools/sandbox.py).
Python's `if existing_limit:` is falsy both for `None` and for `0`, so a
`LIMIT 0` clause falls into the no-existing-limit branch. -/
def apply_row_limit (sql : String) (max_rows : Nat)
    (default_limit : Nat := 200) : String × Nat :=
  match extract_limit sql with
  | some n =>
    if n ≠ 0 then
      let eff := min n max_rows
      (⟨replaceLimitAll eff sql.data⟩, eff)
    else
      let eff := min default_limit max_rows
      (ensure_limit sql eff, eff)
  | none =>
    let eff := min default_limit max_rows
    (ensure_limit sql eff, eff)

example : apply_row_limit "SELECT * FROM t" 1000 200 =
    ("SELECT * FROM t LIMIT 200;", 200) := by decide

example : apply_row_limit "SELECT * FROM t LIMIT 5000" 1000 200 =
    ("SELECT * FROM t LIMIT 1000", 1000) := by decide

example : apply_row_limit "SELECT * FROM t LIMIT 50" 1000 200 =
    ("SELECT * FROM t LIMIT 50", 50) := by decide

example : check_sql_safety "DROP TABLE customer;" =
    ⟨false, some "SANDBOX_NON_SELECT"⟩ := by decide

example : check_sql_safety "SELECT * FROM customer LIMIT 10;" =
    ⟨true, none⟩ := by decide

/-! ## The ordered-policy view of `check_sql_safety` (spec §4.3) -/

/-- First-failing-check composition: the spec's "Policy, applied in
order"; each check is a violation flag paired with the code reported
when it is the first to fire. -/
def firstFailing : List (Bool × String) → SafetyResult
  | [] => ⟨true, none⟩
  | (bad, code) :: rest => if bad then ⟨false, some code⟩ else firstFailing rest

/-- The four checks of `check_sql_safety` as independent predicates, in
the source's order: empty, non-SELECT (on the comment-stripped SQL),
dangerous pattern, forbidden keyword. -/
def safetyChecks (sql : String) (forbidden_keywords : Option (List String)) :
    List (Bool × String) :=
  [((stripWs sql.data).isEmpty, "SANDBOX_EMPTY_SQL"),
   (!(("select".data).isPrefixOf (sqlCleanLower sql)), "SANDBOX_NON_SELECT"),
   (hasDangerousPattern (sqlCleanLower sql), "SANDBOX_DANGEROUS_PATTERN"),
   (hasForbiddenKeyword (forbidden_keywords.getD default_forbidden)
      (sqlCleanLower sql), "SANDBOX_FORBIDDEN_KEYWORD")]

/-! ## Database client front end (src/tools/db.py) -/

/-- The sandbox configuration dictionary as `DatabaseClient.query` reads
it. -/
structure SandboxConfig where
  enabled : Bool
  forbidden_keywords : Option (List String)
  max_rows : Nat
  default_limit : Nat

/-- Modelled from the spec: `config.get_sandbox_config()` is called by
`DatabaseClient.query` (src/tools/db.py) but no such method exists under
src/configs/config.py.  Per the spec the Sandbox Guard is the always-on
authoritative gate for statement safety, with row caps
`maxRows = 1000` and `defaultLimit = 200` (the same defaults `query`
itself falls back to, and `query` also treats a missing `enabled` key as
`True`); no custom forbidden-keyword list is configured. -/
def get_sandbox_config : SandboxConfig :=
  { enabled := true, forbidden_keywords := none,
    max_rows := 1000, default_limit := 200 }

/-- The result dictionary of `DatabaseClient.query`, restricted to the
fields the claims speak about (`ok` and the stable error `code`). -/
structure QueryResult where
  ok : Bool
  code : Option String
deriving DecidableEq, Repr

namespace DatabaseClient

/-- The pre-execution pipeline of `DatabaseClient.query`
(src/tools/db.py): empty check, sandbox safety check, row limiting, and
only then the driver.  The driver (connection, cursor, fetch) is the
collaborator `exec`, a function of the rewritten SQL: a result that does
not depend on `exec` was produced without opening a connection or
executing anything. -/
def query (exec : String → QueryResult) (sql : String) : QueryResult :=
  if (stripWs sql.data).isEmpty then
    ⟨false, some "SANDBOX_EMPTY_SQL"⟩
  else
    let cfg := get_sandbox_config
    let safety := check_sql_safety sql cfg.forbidden_keywords
    if cfg.enabled && !safety.ok then
      ⟨false, safety.code⟩
    else
      let sql_with_limit := (apply_row_limit sql cfg.max_rows cfg.default_limit).1
      exec sql_with_limit

end DatabaseClient

/-! ## Claims C1, C2, C3, C10 -/

/-- C1: `check_sql_safety` applies its checks in the fixed order
empty → non-SELECT → dangerous-pattern → forbidden-keyword, the first
failing check determines the returned `{ok, code}` (codes
`SANDBOX_EMPTY_SQL`, `SANDBOX_NON_SELECT`, `SANDBOX_DANGEROUS_PATTERN`,
`SANDBOX_FORBIDDEN_KEYWORD` respectively — the spec names them without
the `SANDBOX_` prefix), and the function is deterministic: equal SQL
strings give equal results. -/
theorem check_sql_safety_order_and_deterministic :
    (∀ sql forbidden, check_sql_safety sql forbidden =
      firstFailing (safetyChecks sql forbidden)) ∧
    (∀ sql1 sql2 forbidden, sql1 = sql2 →
      check_sql_safety sql1 forbidden = check_sql_safety sql2 forbidden) := by
  constructor
  · intro sql forbidden
    rfl
  · intro sql1 sql2 forbidden h
    rw [h]

/-- C2 counterexample: for `"SELECT * FROM t LIMIT 0"` an existing
`LIMIT n` clause is present with `n = 0`, but `apply_row_limit` does not
clamp it to `min(0, 1000) = 0`: it reports effective limit `200`. -/
theorem apply_row_limit_claim_counterexample :
    extract_limit "SELECT * FROM t LIMIT 0" = some 0 ∧
    (apply_row_limit "SELECT * FROM t LIMIT 0" 1000 200).2 = 200 ∧
    (200 : Nat) ≠ min 0 1000 := by decide

/-- C2 (amended): `apply_row_limit` clamps an existing `LIMIT n` clause
with `n ≥ 1` to `min(n, maxRows)` (rewriting every `LIMIT` occurrence to
that value) and, when no such clause is found, appends
`LIMIT min(defaultLimit, maxRows)` via `ensure_limit`; the claim's three
example inputs behave exactly as stated. -/
theorem apply_row_limit_spec :
    (∀ sql n max_rows d, extract_limit sql = some n → 1 ≤ n →
      apply_row_limit sql max_rows d =
        (⟨replaceLimitAll (min n max_rows) sql.data⟩, min n max_rows)) ∧
    (∀ sql max_rows d, extract_limit sql = none →
      apply_row_limit sql max_rows d =
        (ensure_limit sql (min d max_rows), min d max_rows)) ∧
    strContains (apply_row_limit "SELECT * FROM t" 1000 200).1 "LIMIT 200" = true ∧
    apply_row_limit "SELECT * FROM t LIMIT 5000" 1000 200 =
      ("SELECT * FROM t LIMIT 1000", 1000) ∧
    apply_row_limit "SELECT * FROM t LIMIT 50" 1000 200 =
      ("SELECT * FROM t LIMIT 50", 50) := by
  refine ⟨?_, ?_, by decide, by decide, by decide⟩
  · intro sql n max_rows d h hn
    have : n ≠ 0 := by omega
    simp [apply_row_limit, h, this]
  · intro sql max_rows d h
    simp [apply_row_limit, h]

/-- C3: `"DROP TABLE customer;"` is rejected by the safety check with
`ok = false`, `code = SANDBOX_NON_SELECT`, and `DatabaseClient.query`
returns exactly that rejection whatever the database driver would do —
the driver is never consulted. -/
theorem drop_table_blocked_before_driver :
    check_sql_safety "DROP TABLE customer;" =
      ⟨false, some "SANDBOX_NON_SELECT"⟩ ∧
    (∀ exec : String → QueryResult,
      DatabaseClient.query exec "DROP TABLE customer;" =
        ⟨false, some "SANDBOX_NON_SELECT"⟩) := by
  refine ⟨by decide, fun exec => ?_⟩
  rfl

/-- C10: `"SELECT * FROM t LIMIT 0"` — `extract_limit` reports `0`,
which is falsy, so `apply_row_limit` takes the no-existing-limit branch;
`ensure_limit` sees the literal `" limit "` substring and returns the
SQL unchanged, so the call returns the original SQL (still containing
`LIMIT 0`) paired with effective limit `min(defaultLimit, maxRows) = 200`,
which the returned SQL does not enforce.  The last conjunct states the
branch selection for every SQL whose extracted limit is `0`. -/
theorem apply_row_limit_limit_zero_edge :
    extract_limit "SELECT * FROM t LIMIT 0" = some 0 ∧
    ensure_limit "SELECT * FROM t LIMIT 0" 200 = "SELECT * FROM t LIMIT 0" ∧
    apply_row_limit "SELECT * FROM t LIMIT 0" 1000 200 =
      ("SELECT * FROM t LIMIT 0", 200) ∧
    strContains (apply_row_limit "SELECT * FROM t LIMIT 0" 1000 200).1
      "LIMIT 0" = true ∧
    (200 : Nat) = min 200 1000 ∧
    (∀ sql m d, extract_limit sql = some 0 →
      apply_row_limit sql m d = (ensure_limit sql (min d m), min d m)) := by
  refine ⟨by decide, by decide, by decide, by decide, by decide, ?_⟩
  intro sql m d h
  simp [apply_row_limit, h]

/-! ## Clarification heuristic (src/graphs/nodes/clarify.py) -/

/-- The result of `check_if_needs_clarification`. -/
structure ClarificationCheck where
  needs_clarification : Bool
  reasons : List String
  clarification_type : String
deriving DecidableEq, Repr

def explicit_time_keywords : List String :=
  ["最近一周", "最近一个月", "最近三个月", "最近一年",
   "本月", "今年", "去年", "上个月", "上周", "昨天", "今天",
   "2024", "2023", "2022", "2021", "年", "月", "日", "周"]

def explicit_aggregation_keywords : List String :=
  ["总数", "总和", "总金额", "总数量", "平均", "平均值",
   "最大", "最小", "最多", "最少", "count", "sum", "avg",
   "max", "min", "数量", "金额", "销售额"]

def explicit_field_keywords : List String :=
  ["ID", "名称", "日期", "金额", "数量", "地址", "城市", "国家",
   "客户", "订单", "产品", "员工", "发票"]

/-- `check_if_needs_clarification(question, candidate_sql)`
(src/graphs/nodes/clarify.py).  The source checks some keyword lists
against the raw `question` and others against `question.lower()`,
reproduced here exactly; `candidate_sql` is accepted and unused, as in
the source.  The sequential `if not clarification_type` updates of the
source make `clarification_type` the tag of the first criterion that
fired, `"general"` when none did. -/
def check_if_needs_clarification (question : String)
    (candidate_sql : Option String := none) : ClarificationCheck :=
  let q := question.data
  let question_lower := lowerL q
  let has_time_related := ["时间", "日期", "什么时候", "何时", "最近"].any
      (fun kw => containsSub kw.data q)
  let has_explicit_time := explicit_time_keywords.any
      (fun kw => containsSub kw.data q)
  let r1 := has_time_related && !has_explicit_time
  let has_aggregation_related := ["统计", "汇总", "分析", "查看", "查询"].any
      (fun kw => containsSub kw.data question_lower)
  let has_explicit_aggregation := explicit_aggregation_keywords.any
      (fun kw => containsSub kw.data q)
  let has_specific_query :=
    (["查询", "显示", "列出", "查找"].any (fun kw => containsSub kw.data q)) &&
      (explicit_field_keywords.any (fun kw => containsSub kw.data q))
  let r2 := has_aggregation_related && !has_explicit_aggregation &&
    !has_specific_query
  let has_vague_field := ["信息", "数据", "详情", "情况"].any
      (fun kw => containsSub kw.data question_lower)
  let has_explicit_field :=
    (explicit_field_keywords.any (fun kw => containsSub kw.data q)) ||
      (["哪些", "什么", "哪个", "哪"].any (fun kw => containsSub kw.data q))
  let has_common_entity :=
    ["客户", "订单", "产品", "员工", "发票", "销售", "购买"].any
      (fun kw => containsSub kw.data q)
  let is_sufficiently_specific :=
    has_explicit_time || has_explicit_aggregation || has_common_entity
  let r3 := has_vague_field && !has_explicit_field && !is_sufficiently_specific
  let r4 := ["最好", "最差", "重要", "主要", "相关"].any
      (fun kw => containsSub kw.data q)
  let reasons :=
    (if r1 then ["问题涉及时间但缺少具体时间范围"] else []) ++
      (if r2 then ["需要聚合但未明确聚合方式（数量/总和/平均等）"] else []) ++
      (if r3 then ["字段需求不明确"] else []) ++
      (if r4 then ["存在可能产生歧义的词汇"] else [])
  let ctype : Option String :=
    if r1 then some "time_range"
    else if r2 then some "aggregation"
    else if r3 then some "field"
    else if r4 then some "ambiguity"
    else none
  { needs_clarification := !reasons.isEmpty,
    reasons := reasons,
    clarification_type := ctype.getD "general" }

/-! ## Clarify node (src/graphs/nodes/clarify.py) -/

/-- A dialog-history entry, restricted to the fields `clarify_node`
reads back (`role`, `content`); the source entries also carry a
timestamp and a type tag that no reconstruction logic consults. -/
structure DialogEntry where
  role : String
  content : String
deriving DecidableEq, Repr

/-- The state fields `clarify_node` reads and writes. -/
structure ClarifyState where
  question : String
  normalized_question : Option String
  candidate_sql : Option String
  clarification_answer : Option String
  clarification_question : Option String
  clarification_options : List String
  needs_clarification : Bool
  clarification_count : Nat
  max_clarifications : Nat
  dialog_history : List DialogEntry
deriving DecidableEq, Repr

/-- The original-question reconstruction of `clarify_node`, walking a
newest-first history: the first entry with role `"user"` and non-empty
content; when its content contains both `（` and `）`, the part before
the first `（` (`content.split("（")[0]`), else the content itself; the
current question when no such entry exists. -/
def findOriginalRev (question : String) : List DialogEntry → String
  | [] => question
  | e :: older =>
    if e.role == "user" && e.content != "" then
      if strContains e.content "（" && strContains e.content "）" then
        ⟨cutFrom ['（'] e.content.data⟩
      else e.content
    else findOriginalRev question older

/-- `clarify_node`'s loop over `reversed(dialog_history)` (the history
is stored oldest first). -/
def reconstruct_original (question : String)
    (dialog_history : List DialogEntry) : String :=
  findOriginalRev question dialog_history.reverse

/-- The non-answer part of `clarify_node`: run the heuristic, drop the
clarification once `clarification_count` has reached
`max_clarifications`, and otherwise ask the LLM for a clarification
question.  `llm` stands for the template + LLM call + response parse;
`none` models the exception path (clarification is skipped, the flow
continues). -/
def clarify_node_check (llm : Option (String × List String))
    (s : ClarifyState) : ClarifyState :=
  let chk := check_if_needs_clarification s.question s.candidate_sql
  let needs := chk.needs_clarification &&
    !(decide (s.clarification_count ≥ s.max_clarifications))
  if !needs then { s with needs_clarification := false }
  else
    match llm with
    | some (q, opts) =>
      { s with
        needs_clarification := true
        clarification_question := some q
        clarification_options := opts
        clarification_count := s.clarification_count + 1
        dialog_history := s.dialog_history ++
          [{ role := "user", content := s.question },
           { role := "assistant", content := q }] }
    | none => { s with needs_clarification := false }

/-- `clarify_node` (src/graphs/nodes/clarify.py).  Python's
`if clarification_answer:` is truthy only for a present, non-empty
answer.  The dialog-history update shown is the node's inline fallback
(no session / context manager); with a context manager the appended
entries carry the same roles and contents, and no field claim C5 speaks
about differs. -/
def clarify_node (llm : Option (String × List String))
    (s : ClarifyState) : ClarifyState :=
  match s.clarification_answer with
  | some answer =>
    if answer = "" then clarify_node_check llm s
    else
      let original := reconstruct_original s.question s.dialog_history
      let normalized := original ++ "（" ++ answer ++ "）"
      { s with
        question := normalized
        normalized_question := some normalized
        candidate_sql := none
        clarification_answer := none
        clarification_question := none
        needs_clarification := false
        dialog_history := s.dialog_history ++
          [{ role := "assistant", content := s.clarification_question.getD "" },
           { role := "user", content := answer }] }
  | none => clarify_node_check llm s

/-! ## Claims C5 and C6 -/

/-- C5: whenever `clarify_node` is applied to a state carrying a
non-empty clarification answer, the returned state's normalized question
is the reconstructed original question followed by the answer in
fullwidth parentheses, and `candidate_sql`, `clarification_answer` and
`clarification_question` are all cleared. -/
theorem clarify_answer_round_trip (llm : Option (String × List String))
    (s : ClarifyState) (answer : String)
    (ha : s.clarification_answer = some answer) (hne : answer ≠ "") :
    (clarify_node llm s).normalized_question =
      some (reconstruct_original s.question s.dialog_history ++
        "（" ++ answer ++ "）") ∧
    (clarify_node llm s).question =
      reconstruct_original s.question s.dialog_history ++
        "（" ++ answer ++ "）" ∧
    (clarify_node llm s).candidate_sql = none ∧
    (clarify_node llm s).clarification_answer = none ∧
    (clarify_node llm s).clarification_question = none := by
  simp [clarify_node, ha, hne]

/-- A concrete state carrying the clarification answer
`"最近一个月"` to a pending clarification of `"查询最近的发票"`. -/
def clarifyAnswerState : ClarifyState :=
  { question := "查询最近的发票",
    normalized_question := none,
    candidate_sql := some "SELECT * FROM invoice;",
    clarification_answer := some "最近一个月",
    clarification_question := some "请问您要查询哪个时间范围？",
    clarification_options := [],
    needs_clarification := true,
    clarification_count := 1,
    max_clarifications := 3,
    dialog_history := [{ role := "user", content := "查询最近的发票" }] }

/-- Witness for C5 at `clarifyAnswerState`. -/
theorem clarify_answer_round_trip_witness :
    (clarify_node none clarifyAnswerState).normalized_question =
      some (reconstruct_original clarifyAnswerState.question
        clarifyAnswerState.dialog_history ++ "（" ++ "最近一个月" ++ "）") ∧
    (clarify_node none clarifyAnswerState).question =
      reconstruct_original clarifyAnswerState.question
        clarifyAnswerState.dialog_history ++ "（" ++ "最近一个月" ++ "）" ∧
    (clarify_node none clarifyAnswerState).candidate_sql = none ∧
    (clarify_node none clarifyAnswerState).clarification_answer = none ∧
    (clarify_node none clarifyAnswerState).clarification_question = none :=
  clarify_answer_round_trip none clarifyAnswerState "最近一个月" rfl (by decide)

/-- C6: the heuristic on `"查询最近的发票"` asks for clarification with
the (single) reason classified `time_range`; on
`"查询最近一个月的发票"` it does not ask. -/
theorem clarification_heuristic_examples :
    (check_if_needs_clarification "查询最近的发票").needs_clarification = true ∧
    (check_if_needs_clarification "查询最近的发票").reasons =
      ["问题涉及时间但缺少具体时间范围"] ∧
    (check_if_needs_clarification "查询最近的发票").clarification_type =
      "time_range" ∧
    (check_if_needs_clarification "查询最近一个月的发票").needs_clarification =
      false := by decide

/-! ## Context memory (src/graphs/utils/context_memory.py) -/

/-- A conversation-history entry as the `ContextMemoryManager.add_*`
methods build them, restricted to the discriminating fields (the source
entries also carry a timestamp and the session id; the trimming logic is
content-agnostic). -/
structure ConversationEntry where
  role : String
  content : String
  kind : String
deriving DecidableEq, Repr

/-- `_trim_history`: `if len(h) > max_history: h = h[-max_history:]`.
Python's `h[-0:]` is the whole list, so `max_history = 0` never trims. -/
def trim_history (max_history : Nat)
    (h : List ConversationEntry) : List ConversationEntry :=
  if h.length > max_history then
    if max_history = 0 then h else h.drop (h.length - max_history)
  else h

/-- The shared shape of every `add_*` method of `ContextMemoryManager`
(`add_query`, `add_clarification`, `add_clarification_answer`,
`add_answer`, `add_chat_response`): append the new entry, then trim. -/
def add_entry (max_history : Nat) (h : List ConversationEntry)
    (e : ConversationEntry) : List ConversationEntry :=
  trim_history max_history (h ++ [e])

/-- `add_query(question)`: the user/query instance of `add_entry`. -/
def add_query (max_history : Nat) (h : List ConversationEntry)
    (question : String) : List ConversationEntry :=
  add_entry max_history h { role := "user", content := question, kind := "query" }

/-- The most recent `n` elements of a list, in order. -/
def takeLast (n : Nat) (l : List α) : List α := l.drop (l.length - n)

theorem takeLast_append_absorb (n : Nat) (t es : List α) :
    takeLast n (takeLast n t ++ es) = takeLast n (t ++ es) := by
  unfold takeLast
  rcases le_or_lt t.length n with h | h
  · rw [Nat.sub_eq_zero_of_le h, List.drop_zero]
  · rw [List.drop_append_eq_append_drop, List.drop_append_eq_append_drop,
      List.drop_drop, List.length_drop, List.length_append, List.length_append,
      List.length_drop]
    have e1 : t.length - n + (t.length - (t.length - n) + es.length - n) =
        t.length + es.length - n := by omega
    have e2 : t.length - (t.length - n) + es.length - n -
        (t.length - (t.length - n)) = t.length + es.length - n - t.length := by
      omega
    rw [e1, e2]

theorem add_entry_eq_takeLast (m : Nat) (hm : 1 ≤ m)
    (h : List ConversationEntry) (e : ConversationEntry) :
    add_entry m h e = takeLast m (h ++ [e]) := by
  unfold add_entry trim_history takeLast
  rcases le_or_lt (h ++ [e]).length m with hle | hgt
  · rw [if_neg (by omega), Nat.sub_eq_zero_of_le hle, List.drop_zero]
  · rw [if_pos (by omega), if_neg (by omega)]

theorem foldl_add_entry (m : Nat) (hm : 1 ≤ m) (es : List ConversationEntry) :
    ∀ acc : List ConversationEntry, acc.length ≤ m →
      List.foldl (add_entry m) acc es = takeLast m (acc ++ es) := by
  induction es with
  | nil =>
    intro acc hacc
    simp only [List.foldl_nil, List.append_nil, takeLast,
      Nat.sub_eq_zero_of_le hacc, List.drop_zero]
  | cons e rest ih =>
    intro acc hacc
    rw [List.foldl_cons, add_entry_eq_takeLast m hm,
      ih _ (by simp [takeLast]; omega),
      takeLast_append_absorb, List.append_assoc]
    rfl

/-- C7 counterexample: a manager with capacity `maxHistory = 0` given
`0 + 1` insertions keeps the single entry, not "exactly the most recent
`0` entries" — Python's `history[-0:]` slice is the whole list. -/
theorem context_memory_fifo_counterexample :
    List.foldl (add_entry 0) []
        [{ role := "user", content := "q1", kind := "query" }] =
      [{ role := "user", content := "q1", kind := "query" }] ∧
    List.foldl (add_entry 0) []
        [{ role := "user", content := "q1", kind := "query" }] ≠
      ([] : List ConversationEntry) := by decide

/-- C7 (amended): for every capacity `maxHistory ≥ 1` and every sequence
of `maxHistory + k` insertions into an empty manager, exactly the most
recent `maxHistory` entries remain, in their original relative order
(the `k` oldest are evicted). -/
theorem context_memory_fifo (max_history k : Nat)
    (es : List ConversationEntry) (hm : 1 ≤ max_history)
    (hlen : es.length = max_history + k) :
    List.foldl (add_entry max_history) [] es = es.drop k := by
  rw [foldl_add_entry max_history hm es [] (by simp), List.nil_append]
  unfold takeLast
  congr 1
  omega

/-- Witness for C7 (amended): capacity 2, three insertions, the first
entry is evicted. -/
theorem context_memory_fifo_witness :
    List.foldl (add_entry 2) []
        [{ role := "user", content := "q1", kind := "query" },
         { role := "assistant", content := "a1", kind := "answer" },
         { role := "user", content := "q2", kind := "query" }] =
      List.drop 1
        [{ role := "user", content := "q1", kind := "query" },
         { role := "assistant", content := "a1", kind := "answer" },
         { role := "user", content := "q2", kind := "query" }] :=
  context_memory_fifo 2 1 _ (by decide) (by decide)

/-! ## Schema manager: foreign-key inference (src/tools/schema_manager.py) -/

/-- A column of the persisted schema, restricted to the fields
`_infer_foreign_keys` reads (`name`, `primary_key`). -/
structure Column where
  name : String
  primary_key : Bool
deriving DecidableEq, Repr

structure Table where
  name : String
  columns : List Column
deriving DecidableEq, Repr

structure Schema where
  tables : List Table
deriving DecidableEq, Repr

/-- An inferred foreign key, as `_infer_foreign_keys` appends them. -/
structure ForeignKey where
  column : String
  references_table : String
  references_column : String
deriving DecidableEq, Repr

def strLower (s : String) : String := ⟨lowerL s.data⟩

/-- `table_lower.rstrip('s')`: every trailing `s` removed. -/
def rstripS (s : String) : String := ⟨rstripChar 's' s.data⟩

/-- `{t["name"].lower(): t["name"] for t in schema["tables"]}` as an
ordered association list: iteration keeps first-occurrence key order; a
repeated key keeps its first position but its last value. -/
def insertKeyLast (m : List (String × String)) (k v : String) :
    List (String × String) :=
  if m.any (fun p => p.1 == k) then
    m.map (fun p => if p.1 == k then (k, v) else p)
  else m ++ [(k, v)]

def all_table_names (tables : List Table) : List (String × String) :=
  tables.foldl (fun m t => insertKeyLast m (strLower t.name) t.name) []

/-- The `special_mappings` rewrite of the candidate base name
(`supportrep → employee`, `reportsto → employee`; the second entry is
unreachable because `ReportsTo` does not end in `Id`). -/
def special_mappings (base : String) : String :=
  if strLower base == "supportrep" then "employee"
  else if strLower base == "reportsto" then "employee"
  else base

/-- The first table with exactly this name (the source's inner
`for t in schema["tables"]` lookup by original name). -/
def findTable (tables : List Table) (name : String) : Option Table :=
  tables.find? (fun t => t.name == name)

/-- The first primary-key column of a table, if any. -/
def findPk (t : Table) : Option String :=
  (t.columns.find? (fun c => c.primary_key)).map (fun c => c.name)

/-- Match rule 1: exact table-name match (`CustomerId → customer`). -/
def ruleExact (base table_lower _pk _col : String) : Bool :=
  table_lower == strLower base

/-- Match rule 2: singular/plural match (`customers` stripped of
trailing `s`). -/
def ruleSingular (base table_lower _pk _col : String) : Bool :=
  rstripS table_lower == strLower base

/-- Match rule 3: alias/substring match (a base containing `rep`
against a table containing `employee`). -/
def ruleAlias (base table_lower _pk _col : String) : Bool :=
  strContains (strLower base) "rep" && strContains table_lower "employee"

/-- Match rule 4: primary-key-name equality with the column name. -/
def rulePkName (_base _table_lower pk col : String) : Bool :=
  strLower pk == strLower col

/-- The inner loop of `_infer_foreign_keys` for one candidate column,
as the source writes it: tables are scanned in `all_table_names` order,
a table without a primary key is skipped, and at each table the four
match rules are tried in order; the first rule that fires selects this
table (`break`). -/
def matchColumn (schema : Schema) (names : List (String × String))
    (base col_name : String) : Option (String × String) :=
  names.findSome? (fun p =>
    match findTable schema.tables p.2 with
    | none => none
    | some target =>
      match findPk target with
      | none => none
      | some pk =>
        if ruleExact base p.1 pk col_name then some (p.2, pk)
        else if ruleSingular base p.1 pk col_name then some (p.2, pk)
        else if ruleAlias base p.1 pk col_name then some (p.2, pk)
        else if rulePkName base p.1 pk col_name then some (p.2, pk)
        else none)

/-- `_infer_foreign_keys(table_name)` (src/tools/schema_manager.py):
for every non-primary-key column whose name ends in `Id` (and is longer
than 2 characters), the base name (`Id` stripped, special mappings
applied) is matched against the candidate tables; a match contributes
one inferred foreign key. -/
def infer_foreign_keys (schema : Schema) (table_name : String) :
    List ForeignKey :=
  match schema.tables.find?
      (fun t => strLower t.name == strLower table_name) with
  | none => []
  | some current =>
    let names := all_table_names schema.tables
    current.columns.filterMap (fun col =>
      if col.primary_key then none
      else if ("Id".data).isSuffixOf col.name.data &&
          decide (2 < col.name.data.length) then
        let base := special_mappings ⟨col.name.data.take (col.name.data.length - 2)⟩
        (matchColumn schema names base col.name).map (fun m =>
          { column := col.name, references_table := m.1,
            references_column := m.2 })
      else none)

/-- The claim's reading of the priority: each rule is tried, in the
fixed order exact → singularized → alias → PK-name, over all candidate
tables, and only when a rule matches no table at all is the next rule
tried. -/
def matchColumnRuleMajor (schema : Schema) (names : List (String × String))
    (base col_name : String) : Option (String × String) :=
  [ruleExact, ruleSingular, ruleAlias, rulePkName].findSome? (fun rule =>
    names.findSome? (fun p =>
      match findTable schema.tables p.2 with
      | none => none
      | some target =>
        match findPk target with
        | none => none
        | some pk =>
          if rule base p.1 pk col_name then some (p.2, pk) else none))

/-- `infer_foreign_keys` as the claim reads it: rule-major matching. -/
def infer_foreign_keys_rule_major (schema : Schema) (table_name : String) :
    List ForeignKey :=
  match schema.tables.find?
      (fun t => strLower t.name == strLower table_name) with
  | none => []
  | some current =>
    let names := all_table_names schema.tables
    current.columns.filterMap (fun col =>
      if col.primary_key then none
      else if ("Id".data).isSuffixOf col.name.data &&
          decide (2 < col.name.data.length) then
        let base := special_mappings ⟨col.name.data.take (col.name.data.length - 2)⟩
        (matchColumnRuleMajor schema names base col.name).map (fun m =>
          { column := col.name, references_table := m.1,
            references_column := m.2 })
      else none)

/-- The same per-table scan with the four rules named as a list: within
one table every rule selects the same `(table, pk)` result, so the
table-major first match is the first table at which any rule fires. -/
def matchColumnTableMajor (schema : Schema) (names : List (String × String))
    (base col_name : String) : Option (String × String) :=
  names.findSome? (fun p =>
    match findTable schema.tables p.2 with
    | none => none
    | some target =>
      match findPk target with
      | none => none
      | some pk =>
        if [ruleExact, ruleSingular, ruleAlias, rulePkName].any
            (fun rule => rule base p.1 pk col_name) then
          some (p.2, pk)
        else none)

def infer_foreign_keys_table_major (schema : Schema) (table_name : String) :
    List ForeignKey :=
  match schema.tables.find?
      (fun t => strLower t.name == strLower table_name) with
  | none => []
  | some current =>
    let names := all_table_names schema.tables
    current.columns.filterMap (fun col =>
      if col.primary_key then none
      else if ("Id".data).isSuffixOf col.name.data &&
          decide (2 < col.name.data.length) then
        let base := special_mappings ⟨col.name.data.take (col.name.data.length - 2)⟩
        (matchColumnTableMajor schema names base col.name).map (fun m =>
          { column := col.name, references_table := m.1,
            references_column := m.2 })
      else none)

/-- A schema on which table-major and rule-major matching disagree: the
column `BarId` of `orders` matches table `foo` by primary-key name
(rule 4) and table `bar` by exact name (rule 1), and `foo` comes first
in schema order. -/
def fkSchema : Schema :=
  { tables :=
      [{ name := "orders",
         columns := [{ name := "OrderId", primary_key := true },
                     { name := "BarId", primary_key := false }] },
       { name := "foo",
         columns := [{ name := "BarId", primary_key := true }] },
       { name := "bar",
         columns := [{ name := "BarKey", primary_key := true }] }] }

/-- C9 counterexample: on `fkSchema`, `_infer_foreign_keys("orders")`
resolves `BarId` to `foo` (an earlier table matched by the lowest-
priority rule, PK-name equality), while the claim's rule-priority order
would resolve it to `bar` (exact table-name match). -/
theorem infer_fk_priority_counterexample :
    infer_foreign_keys fkSchema "orders" =
      [{ column := "BarId", references_table := "foo",
         references_column := "BarId" }] ∧
    infer_foreign_keys_rule_major fkSchema "orders" =
      [{ column := "BarId", references_table := "bar",
         references_column := "BarKey" }] ∧
    infer_foreign_keys fkSchema "orders" ≠
      infer_foreign_keys_rule_major fkSchema "orders" := by decide

theorem matchColumn_eq_tableMajor (schema : Schema)
    (names : List (String × String)) (base col_name : String) :
    matchColumn schema names base col_name =
      matchColumnTableMajor schema names base col_name := by
  unfold matchColumn matchColumnTableMajor
  congr 1
  funext p
  cases hft : findTable schema.tables p.2 with
  | none => simp only [hft]
  | some target =>
    cases hpk : findPk target with
    | none => simp only [hft, hpk]
    | some pk =>
      simp only [hft, hpk, List.any_cons, List.any_nil, Bool.or_false]
      cases h1 : ruleExact base p.1 pk col_name <;>
        cases h2 : ruleSingular base p.1 pk col_name <;>
        cases h3 : ruleAlias base p.1 pk col_name <;>
        cases h4 : rulePkName base p.1 pk col_name <;>
        simp [h1, h2, h3, h4]

/-- C9 (amended): for every schema and table, `_infer_foreign_keys`
equals the table-major composition of the four accept rules: candidate
tables are scanned in schema order and, within each table, the rules
are tried in the fixed order exact → singularized → alias → PK-name
equality; the first (table, rule) pair that matches wins, so the table
scan order takes precedence over the rule priority. -/
theorem infer_fk_table_major_order (schema : Schema) (table_name : String) :
    infer_foreign_keys schema table_name =
      infer_foreign_keys_table_major schema table_name := by
  unfold infer_foreign_keys infer_foreign_keys_table_major
  cases schema.tables.find? (fun t => strLower t.name == strLower table_name) with
  | none => rfl
  | some current =>
    simp only
    congr 1
    funext col
    rw [matchColumn_eq_tableMajor]

/-! ## Orchestrator state machine (src/graphs/base_graph.py and the
node files) -/

/-- The nodes of the compiled LangGraph (`build_graph`), plus the END
state. -/
inductive Node where
  | parse_intent
  | log
  | generate_sql
  | clarify
  | validate_sql
  | critique_sql
  | execute_sql
  | answer_builder
  | echo
  | done
deriving DecidableEq, Repr

/-- The `NL2SQLState` fields the bounded-loop claim depends on, plus
the current node.  Optional string fields are abstracted to their
Python truthiness (`critique` is "a critique is pending", and so on);
fields read by no counter update and no router (question, candidate
SQL, histories, execution results) are not carried. -/
structure GState where
  node : Node
  regeneration_count : Nat
  max_regenerations : Nat
  clarification_count : Nat
  max_clarifications : Nat
  critique : Bool
  validation_passed : Bool
  is_chat_response : Bool
  needs_clarification : Bool
  clarification_question : Bool
  clarification_answer : Bool
deriving DecidableEq, Repr

/-- The routes of `should_retry_sql` (src/graphs/nodes/validate_sql.py). -/
inductive RetryRoute where
  | execute
  | retry
  | fail
deriving DecidableEq, Repr

/-- `should_retry_sql` (src/graphs/nodes/validate_sql.py). -/
def should_retry_sql (s : GState) : RetryRoute :=
  if s.validation_passed then .execute
  else if s.regeneration_count ≥ s.max_regenerations then .fail
  else .retry

/-- The routes of `should_ask_clarification` (src/graphs/nodes/clarify.py):
`ask` emits the clarification and suspends (edge to echo), `regenerate`
loops back to generation, `proceed` continues to validation. -/
inductive ClarifyRoute where
  | ask
  | regenerate
  | proceed
deriving DecidableEq, Repr

/-- `should_ask_clarification` (src/graphs/nodes/clarify.py). -/
def should_ask_clarification_route (s : GState) : ClarifyRoute :=
  if s.clarification_answer then .regenerate
  else if s.needs_clarification && !s.clarification_question then .ask
  else .proceed

/-- The routes of `should_handle_chat_response` (src/graphs/base_graph.py). -/
inductive ChatRoute where
  | chat
  | clarify
  | proceed
deriving DecidableEq, Repr

/-- `should_handle_chat_response` (src/graphs/base_graph.py): the
context-memory clarification decision reads only the question and the
session history, abstracted as the oracle `ctx_needs`. -/
def should_handle_chat_response (ctx_needs : Bool) (s : GState) : ChatRoute :=
  if s.is_chat_response then .chat
  else if ctx_needs then .clarify
  else .proceed

/-- The conditional edge out of `generate_sql` (`build_graph`). -/
def routeAfterGenerate (ctx_needs : Bool) (s : GState) : GState :=
  match should_handle_chat_response ctx_needs s with
  | .chat => { s with node := .answer_builder }
  | .clarify => { s with node := .clarify }
  | .proceed => { s with node := .validate_sql }

/-- The conditional edge out of `clarify` (`build_graph`). -/
def routeAfterClarify (s : GState) : GState :=
  match should_ask_clarification_route s with
  | .regenerate => { s with node := .generate_sql }
  | .ask => { s with node := .echo }
  | .proceed => { s with node := .validate_sql }

/-- The conditional edge out of `validate_sql` (`build_graph`). -/
def routeAfterValidate (s : GState) : GState :=
  match should_retry_sql s with
  | .execute => { s with node := .execute_sql }
  | .retry => { s with node := .critique_sql }
  | .fail => { s with node := .echo }

/-- One node application of the graph followed by its routing decision.
External outcomes (LLM intent detection, LLM generation success, the
syntax validator, the context-memory clarification heuristic, the
clarification LLM call) appear as oracle arguments; the counter updates
are the ones of the node sources:

* `generate_sql` (src/graphs/nodes/generate_sql.py): intent-detected
  chat replies reset the count; a generated statement sets
  `count + 1` on a critique-driven retry and `0` otherwise; the
  exception path leaves count and critique unchanged.
* `clarify` (src/graphs/nodes/clarify.py): an answered clarification
  clears the pending fields; asking increments
  `clarification_count`, which the node only does below
  `max_clarifications` (at the maximum it forces
  `needs_clarification = False`, the `clarify_not_needed` case).
* `critique_sql` (src/graphs/nodes/critique_sql.py): records a
  critique; it is reached only through the `retry` route. -/
inductive Step : GState → GState → Prop where
  | parse_intent (s : GState) (h : s.node = .parse_intent) :
      Step s { s with node := .log }
  | log (s : GState) (h : s.node = .log) :
      Step s { s with node := .generate_sql }
  | generate_chat_intent (s : GState) (ctx : Bool)
      (h : s.node = .generate_sql) (hc : s.critique = false) :
      Step s (routeAfterGenerate ctx
        { s with
          regeneration_count := 0
          critique := false
          is_chat_response := true })
  | generate_chat_reply (s : GState) (ctx : Bool)
      (h : s.node = .generate_sql) :
      Step s (routeAfterGenerate ctx
        { s with
          regeneration_count :=
            if s.critique then s.regeneration_count else 0
          critique := false
          is_chat_response := true })
  | generate_sql_ok (s : GState) (ctx : Bool) (h : s.node = .generate_sql) :
      Step s (routeAfterGenerate ctx
        { s with
          regeneration_count :=
            if s.critique then s.regeneration_count + 1 else 0
          critique := false
          is_chat_response := false })
  | generate_error (s : GState) (ctx : Bool) (h : s.node = .generate_sql) :
      Step s (routeAfterGenerate ctx { s with is_chat_response := false })
  | clarify_answered (s : GState) (h : s.node = .clarify)
      (ha : s.clarification_answer = true) :
      Step s (routeAfterClarify
        { s with
          needs_clarification := false
          clarification_answer := false
          clarification_question := false })
  | clarify_not_needed (s : GState) (h : s.node = .clarify)
      (ha : s.clarification_answer = false) :
      Step s (routeAfterClarify { s with needs_clarification := false })
  | clarify_asks (s : GState) (h : s.node = .clarify)
      (ha : s.clarification_answer = false)
      (hlt : s.clarification_count < s.max_clarifications) :
      Step s (routeAfterClarify
        { s with
          needs_clarification := true
          clarification_question := true
          clarification_count := s.clarification_count + 1 })
  | validate (s : GState) (passed : Bool) (h : s.node = .validate_sql) :
      Step s (routeAfterValidate { s with validation_passed := passed })
  | critique_sql (s : GState) (h : s.node = .critique_sql) :
      Step s { s with node := .generate_sql, critique := true }
  | execute_sql (s : GState) (h : s.node = .execute_sql) :
      Step s { s with node := .answer_builder }
  | answer_builder (s : GState) (h : s.node = .answer_builder) :
      Step s { s with node := .echo }
  | echo (s : GState) (h : s.node = .echo) :
      Step s { s with node := .done }

/-- The inductive invariant establishing claim C4, strengthened with
what holds on the critique loop: a pending critique (and being at the
critique node) records that the retry guard
`regeneration_count < max_regenerations` was just checked. -/
def CounterInv (s : GState) : Prop :=
  s.regeneration_count ≤ s.max_regenerations ∧
  s.clarification_count ≤ s.max_clarifications ∧
  (s.critique = true → s.regeneration_count < s.max_regenerations) ∧
  (s.node = .critique_sql → s.regeneration_count < s.max_regenerations)

theorem routeAfterGenerate_counters (ctx : Bool) (s : GState) :
    (routeAfterGenerate ctx s).regeneration_count = s.regeneration_count ∧
    (routeAfterGenerate ctx s).max_regenerations = s.max_regenerations ∧
    (routeAfterGenerate ctx s).clarification_count = s.clarification_count ∧
    (routeAfterGenerate ctx s).max_clarifications = s.max_clarifications ∧
    (routeAfterGenerate ctx s).critique = s.critique ∧
    (routeAfterGenerate ctx s).node ≠ Node.critique_sql := by
  unfold routeAfterGenerate
  cases h : should_handle_chat_response ctx s <;> simp [h]

theorem routeAfterClarify_counters (s : GState) :
    (routeAfterClarify s).regeneration_count = s.regeneration_count ∧
    (routeAfterClarify s).max_regenerations = s.max_regenerations ∧
    (routeAfterClarify s).clarification_count = s.clarification_count ∧
    (routeAfterClarify s).max_clarifications = s.max_clarifications ∧
    (routeAfterClarify s).critique = s.critique ∧
    (routeAfterClarify s).node ≠ Node.critique_sql := by
  unfold routeAfterClarify
  cases h : should_ask_clarification_route s <;> simp [h]

theorem routeAfterValidate_counters (s : GState) :
    (routeAfterValidate s).regeneration_count = s.regeneration_count ∧
    (routeAfterValidate s).max_regenerations = s.max_regenerations ∧
    (routeAfterValidate s).clarification_count = s.clarification_count ∧
    (routeAfterValidate s).max_clarifications = s.max_clarifications ∧
    (routeAfterValidate s).critique = s.critique ∧
    ((routeAfterValidate s).node = Node.critique_sql →
      s.regeneration_count < s.max_regenerations) := by
  unfold routeAfterValidate
  cases h : should_retry_sql s <;> simp [h]
  unfold should_retry_sql at h
  split_ifs at h with hp hge
  omega

theorem step_preserves_counterInv {s t : GState} (hst : Step s t)
    (inv : CounterInv s) : CounterInv t := by
  obtain ⟨h1, h2, h3, h4⟩ := inv
  cases hst with
  | parse_intent h =>
    exact ⟨h1, h2, h3, fun hh => by simp at hh⟩
  | log h =>
    exact ⟨h1, h2, h3, fun hh => by simp at hh⟩
  | generate_chat_intent ctx h hc =>
    obtain ⟨e1, e2, e3, e4, e5, e6⟩ := routeAfterGenerate_counters ctx _
    refine ⟨?_, ?_, ?_, fun hh => absurd hh e6⟩
    · rw [e1, e2]; exact Nat.zero_le _
    · rw [e3, e4]; exact h2
    · rw [e5]; exact fun hh => Bool.noConfusion hh
  | generate_chat_reply ctx h =>
    obtain ⟨e1, e2, e3, e4, e5, e6⟩ := routeAfterGenerate_counters ctx _
    refine ⟨?_, ?_, ?_, fun hh => absurd hh e6⟩
    · rw [e1, e2]
      cases hc2 : s.critique <;> simp [hc2]
      exact h1
    · rw [e3, e4]; exact h2
    · rw [e5]; exact fun hh => Bool.noConfusion hh
  | generate_sql_ok ctx h =>
    obtain ⟨e1, e2, e3, e4, e5, e6⟩ := routeAfterGenerate_counters ctx _
    refine ⟨?_, ?_, ?_, fun hh => absurd hh e6⟩
    · rw [e1, e2]
      cases hc2 : s.critique <;> simp [hc2]
      have := h3 hc2
      omega
    · rw [e3, e4]; exact h2
    · rw [e5]; exact fun hh => Bool.noConfusion hh
  | generate_error ctx h =>
    obtain ⟨e1, e2, e3, e4, e5, e6⟩ := routeAfterGenerate_counters ctx _
    refine ⟨?_, ?_, ?_, fun hh => absurd hh e6⟩
    · rw [e1, e2]; exact h1
    · rw [e3, e4]; exact h2
    · rw [e5, e1, e2]; exact h3
  | clarify_answered h ha =>
    obtain ⟨e1, e2, e3, e4, e5, e6⟩ := routeAfterClarify_counters _
    refine ⟨?_, ?_, ?_, fun hh => absurd hh e6⟩
    · rw [e1, e2]; exact h1
    · rw [e3, e4]; exact h2
    · rw [e5, e1, e2]; exact h3
  | clarify_not_needed h ha =>
    obtain ⟨e1, e2, e3, e4, e5, e6⟩ := routeAfterClarify_counters _
    refine ⟨?_, ?_, ?_, fun hh => absurd hh e6⟩
    · rw [e1, e2]; exact h1
    · rw [e3, e4]; exact h2
    · rw [e5, e1, e2]; exact h3
  | clarify_asks h ha hlt =>
    obtain ⟨e1, e2, e3, e4, e5, e6⟩ := routeAfterClarify_counters _
    refine ⟨?_, ?_, ?_, fun hh => absurd hh e6⟩
    · rw [e1, e2]; exact h1
    · rw [e3, e4]
      show s.clarification_count + 1 ≤ s.max_clarifications
      omega
    · rw [e5, e1, e2]; exact h3
  | validate passed h =>
    obtain ⟨e1, e2, e3, e4, e5, e6⟩ := routeAfterValidate_counters _
    refine ⟨?_, ?_, ?_, ?_⟩
    · rw [e1, e2]; exact h1
    · rw [e3, e4]; exact h2
    · rw [e5, e1, e2]; exact h3
    · intro hh
      rw [e1, e2]
      exact e6 hh
  | critique_sql h =>
    exact ⟨h1, h2, fun _ => h4 h, fun hh => by simp at hh⟩
  | execute_sql h =>
    exact ⟨h1, h2, h3, fun hh => by simp at hh⟩
  | answer_builder h =>
    exact ⟨h1, h2, h3, fun hh => by simp at hh⟩
  | echo h =>
    exact ⟨h1, h2, h3, fun hh => by simp at hh⟩

/-- The initial state `run_query` builds (src/graphs/base_graph.py):
both counters are `0`, no critique or chat flag is set, and a
caller-supplied clarification answer may or may not be present. -/
def initState (maxR maxC : Nat) (ans : Bool) : GState :=
  { node := .parse_intent
    regeneration_count := 0
    max_regenerations := maxR
    clarification_count := 0
    max_clarifications := maxC
    critique := false
    validation_passed := false
    is_chat_response := false
    needs_clarification := false
    clarification_question := false
    clarification_answer := ans }

/-- C4: from the initial state, at every state-machine boundary
`regeneration_count ≤ max_regenerations` and
`clarification_count ≤ max_clarifications` hold; moreover the retry
router chooses `retry` only while
`regeneration_count < max_regenerations`. -/
theorem counters_bounded (maxR maxC : Nat) (ans : Bool) (s : GState)
    (h : Relation.ReflTransGen Step (initState maxR maxC ans) s) :
    s.regeneration_count ≤ s.max_regenerations ∧
    s.clarification_count ≤ s.max_clarifications ∧
    (should_retry_sql s = RetryRoute.retry →
      s.regeneration_count < s.max_regenerations) := by
  have hinv : CounterInv s := by
    induction h with
    | refl =>
      exact ⟨Nat.zero_le _, Nat.zero_le _,
        fun hh => Bool.noConfusion hh, fun hh => by simp [initState] at hh⟩
    | tail hsteps hstep ih => exact step_preserves_counterInv hstep ih
  refine ⟨hinv.1, hinv.2.1, fun hr => ?_⟩
  by_cases hp : s.validation_passed
  · simp [should_retry_sql, hp] at hr
  · by_cases hge : s.regeneration_count ≥ s.max_regenerations
    · simp [should_retry_sql, hp, hge] at hr
    · omega

/-- Witness for C4 at the default configuration (`max = 3`), at the
initial boundary. -/
theorem counters_bounded_witness :
    (initState 3 3 false).regeneration_count ≤
      (initState 3 3 false).max_regenerations ∧
    (initState 3 3 false).clarification_count ≤
      (initState 3 3 false).max_clarifications ∧
    (should_retry_sql (initState 3 3 false) = RetryRoute.retry →
      (initState 3 3 false).regeneration_count <
        (initState 3 3 false).max_regenerations) :=
  counters_bounded 3 3 false _ Relation.ReflTransGen.refl

end NL2SQL
